import Mathlib

/-!
Verification of the Harvest Tutor diagnosis workflow.

This file gives a shallow embedding of the client-side diagnosis
orchestration implemented in `frontend/src/app/diagnose/page.tsx` and of
the media-intake validation implemented in the `ImageUpload` component,
and proves the specified properties about them.

Modelling conventions:
  * React `useState` cells of the diagnose page become fields of
    `PageState`; each handler becomes a pure function from the old state
    (plus its inputs) to the new state.
  * The three remote-gateway calls (`predictDisease`, `getExplanation`,
    `generateVoice`) are modelled by passing their structured results in
    as oracles; a `CallTrace` records which calls `handleAnalyze` issued,
    with which arguments, and the sequence of `setAnalysisState` updates.
  * JavaScript truthiness on optional strings (`undefined`/`""` are
    falsy) is modelled by `strTruthy` and `orDefault`.
-/

/-- The `AnalysisState` union type of `page.tsx` line 25. -/
inductive AnalysisState where
  | idle
  | predicting
  | explaining
  | generatingVoice
  | complete
  | error
deriving DecidableEq, BEq, Repr

/-- Metadata of a user-provided `File`: name, MIME type and byte size. -/
structure FileData where
  name : String
  type : String
  size : Nat
deriving DecidableEq, Repr

/-- The `useState` cells of `DiagnosePage` (lines 28-36). -/
structure PageState where
  selectedCrop : String
  selectedLanguage : String
  selectedImage : Option FileData
  analysisState : AnalysisState
  disease : String
  confidence : ℚ
  explanation : String
  audioBase64 : String
  error : String
deriving DecidableEq, Repr

/-- The initial values of the `useState` cells (lines 28-36). -/
def initialState : PageState :=
  { selectedCrop := "Tomato"
    selectedLanguage := "English"
    selectedImage := none
    analysisState := AnalysisState.idle
    disease := ""
    confidence := 0
    explanation := ""
    audioBase64 := ""
    error := "" }

/-- Result shape returned by the `predictDisease` gateway call. -/
structure PredictionResult where
  success : Bool
  disease : Option String
  confidence : Option ℚ
  error : Option String
deriving DecidableEq, Repr

/-- Result shape returned by the `getExplanation` gateway call. -/
structure ExplanationResult where
  success : Bool
  explanation : Option String
  error : Option String
deriving DecidableEq, Repr

/-- Result shape returned by the `generateVoice` gateway call. -/
structure VoiceResult where
  success : Bool
  audioBase64 : Option String
  error : Option String
deriving DecidableEq, Repr

/-- JavaScript truthiness of an optional string: `undefined` and the
empty string are falsy, every other string is truthy. -/
def strTruthy : Option String → Bool
  | none => false
  | some s => s != ""

/-- JavaScript `a || d` on an optional string `a` and default `d`. -/
def orDefault : Option String → String → String
  | none, d => d
  | some s, d => if s == "" then d else s

/-- Record of the remote calls one run of `handleAnalyze` issued, with
their arguments, and the sequence of `setAnalysisState` updates made. -/
structure CallTrace where
  classifyArgs : Option (FileData × String)
  explainArgs : Option (String × String × String)
  voiceArgs : Option (String × String)
  stateHistory : List AnalysisState
deriving DecidableEq, Repr

/-- The fixed fallback explanation string of `page.tsx` line 86. -/
def fallbackExplanation : String :=
  "Expert explanation currently unavailable. Please check the disease name and consult a local agronomist."

/-- Validation message of `page.tsx` line 58. -/
def noImageError : String := "Please upload an image first"

/-- Default classification failure message of `page.tsx` line 69. -/
def defaultPredictError : String := "Failed to predict disease"

/-- The `handleAnalyze` handler (`page.tsx` lines 56-107), as a pure
function of the page state and the three gateway results.  The thrown
`Error` on classification failure is caught by the handler's own
`catch`, which stores the message and enters the `error` state; the
function returns the final state together with the call trace. -/
def handleAnalyze (s : PageState) (pred : PredictionResult)
    (expl : ExplanationResult) (voice : VoiceResult) : PageState × CallTrace :=
  match s.selectedImage with
  | none =>
      ({ s with error := noImageError },
       { classifyArgs := none, explainArgs := none, voiceArgs := none,
         stateHistory := [] })
  | some img =>
      let s1 := { s with analysisState := AnalysisState.predicting, error := "" }
      if !pred.success || !strTruthy pred.disease then
        ({ s1 with error := orDefault pred.error defaultPredictError,
                   analysisState := AnalysisState.error },
         { classifyArgs := some (img, s.selectedCrop), explainArgs := none,
           voiceArgs := none,
           stateHistory := [AnalysisState.predicting, AnalysisState.error] })
      else
        let s2 := { s1 with disease := pred.disease.getD "",
                            confidence := pred.confidence.getD 0,
                            analysisState := AnalysisState.explaining }
        let explText :=
          if expl.success && strTruthy expl.explanation then expl.explanation.getD ""
          else fallbackExplanation
        let s3 := { s2 with explanation := explText,
                            analysisState := AnalysisState.generatingVoice }
        let audio :=
          if voice.success && strTruthy voice.audioBase64 then voice.audioBase64.getD ""
          else ""
        ({ s3 with audioBase64 := audio, analysisState := AnalysisState.complete },
         { classifyArgs := some (img, s.selectedCrop),
           explainArgs := some (s.selectedCrop, pred.disease.getD "", s.selectedLanguage),
           voiceArgs := some (explText, s.selectedLanguage),
           stateHistory := [AnalysisState.predicting, AnalysisState.explaining,
                            AnalysisState.generatingVoice, AnalysisState.complete] })

/-- The `handleImageSelect` handler (`page.tsx` lines 38-45). -/
def handleImageSelect (s : PageState) (file : FileData) : PageState :=
  { s with selectedImage := some file
           analysisState := AnalysisState.idle
           disease := ""
           explanation := ""
           audioBase64 := ""
           error := "" }

/-- The `handleClearImage` handler (`page.tsx` lines 47-54). -/
def handleClearImage (s : PageState) : PageState :=
  { s with selectedImage := none
           analysisState := AnalysisState.idle
           disease := ""
           explanation := ""
           audioBase64 := ""
           error := "" }

/-- The 10 MB size ceiling of the `ImageUpload` component (`10 * 1024 * 1024`). -/
def imageSizeLimit : Nat := 10 * 1024 * 1024

/-- Observable outcome of the `handleFile` validator of the `ImageUpload`
component: the `alert` message shown (if any), whether a preview data URI
was created, and whether the file was forwarded via `onImageSelect`. -/
structure IntakeOutcome where
  alertMsg : Option String
  previewSet : Bool
  forwarded : Bool
deriving DecidableEq, Repr

/-- The `handleFile` validator of the `ImageUpload` component: rejects a
non-image MIME type with an alert, then an oversized file with an alert;
otherwise creates the preview and forwards the file. -/
def handleFile (file : FileData) : IntakeOutcome :=
  if !(file.type.startsWith "image/") then
    { alertMsg := some "Please upload an image file", previewSet := false,
      forwarded := false }
  else if file.size > imageSizeLimit then
    { alertMsg := some "File size must be less than 10MB", previewSet := false,
      forwarded := false }
  else
    { alertMsg := none, previewSet := true, forwarded := true }

/-- Media-intake step at the page level: `handleFile` forwards an
accepted file through `onImageSelect`, which is the page's
`handleImageSelect`; a rejected file leaves the page state untouched. -/
def processFile (s : PageState) (file : FileData) : PageState :=
  if (handleFile file).forwarded then handleImageSelect s file else s

/-- The `isLoading` derived flag (`page.tsx` line 118). -/
def isLoading (st : AnalysisState) : Bool :=
  decide (st = AnalysisState.predicting ∨ st = AnalysisState.explaining ∨
          st = AnalysisState.generatingVoice)

/-- The `disabled` condition of the Analyze button (`page.tsx` line 217):
`!selectedImage || isLoading`. -/
def analyzeDisabled (s : PageState) : Bool :=
  s.selectedImage.isNone || isLoading s.analysisState

/-- Rendering condition of the error panel (`page.tsx` line 242):
the `error` string is truthy. -/
def rendersErrorPanel (s : PageState) : Bool :=
  s.error != ""

/-- Rendering condition of the idle placeholder (`page.tsx` line 328):
`analysisState === idle && !error`. -/
def rendersPlaceholder (s : PageState) : Bool :=
  (decide (s.analysisState = AnalysisState.idle)) && (s.error == "")

/-- Rendering condition of the disease card (`page.tsx` line 254). -/
def rendersDiseaseCard (s : PageState) : Bool :=
  s.disease != ""

/-- Rendering condition of the explanation card (`page.tsx` line 278). -/
def rendersExplanationCard (s : PageState) : Bool :=
  s.explanation != ""

/-- Rendering condition of the audio player (`page.tsx` line 289). -/
def rendersAudioPlayer (s : PageState) : Bool :=
  s.audioBase64 != ""

/-- The fixed language-to-locale map of the local-speech fallback
(`page.tsx` line 315). -/
def langMap : List (String × String) :=
  [("Hindi", "hi-IN"), ("English", "en-US")]

/-- Locale chosen for the local-speech fallback utterance
(`page.tsx` line 316): `langMap[selectedLanguage] || en-US`. -/
def fallbackLocale (language : String) : String :=
  match langMap.lookup language with
  | none => "en-US"
  | some l => if l == "" then "en-US" else l

/-- The supported language labels of the UI (`page.tsx` lines 16-23). -/
def LANGUAGES : List String :=
  ["English", "Hindi", "Telugu", "Tamil", "Bengali", "Marathi"]

/-- Sample file matching the spec scenario (3 MB JPEG). -/
def sampleFile : FileData :=
  { name := "healthy_leaf.jpg", type := "image/jpeg", size := 3000000 }

/-- Page state after selecting `sampleFile` from the initial state. -/
def sReady : PageState := handleImageSelect initialState sampleFile

/-- A failing classification result (spec scenario: model unavailable). -/
def predFail : PredictionResult :=
  { success := false, disease := none, confidence := none,
    error := some "model unavailable" }

/-- A successful classification result (spec scenario: Early Blight). -/
def predOk : PredictionResult :=
  { success := true, disease := some "Early Blight",
    confidence := some (87 / 100), error := none }

/-- A successful explanation result. -/
def explOk : ExplanationResult :=
  { success := true, explanation := some "Early blight is caused by...",
    error := none }

/-- A failing explanation result. -/
def explFail : ExplanationResult :=
  { success := false, explanation := none, error := some "service unavailable" }

/-- A successful voice-synthesis result. -/
def voiceOk : VoiceResult :=
  { success := true, audioBase64 := some "QUJD", error := none }

/-- A failing voice-synthesis result. -/
def voiceFail : VoiceResult :=
  { success := false, audioBase64 := none, error := some "tts unavailable" }

/-- Claim C1: in every analysis cycle where the classification call
returns `success=false` or a missing (absent or empty) disease label, the
final `AnalysisState` is `error` with the gateway's error message (or the
default message when none is given), and neither the explanation call nor
the voice-synthesis call is invoked in that cycle. -/
theorem classify_failure_short_circuits
    (s : PageState) (pred : PredictionResult) (expl : ExplanationResult)
    (voice : VoiceResult)
    (himg : s.selectedImage.isSome = true)
    (hfail : pred.success = false ∨ strTruthy pred.disease = false) :
    (handleAnalyze s pred expl voice).1.analysisState = AnalysisState.error ∧
    (handleAnalyze s pred expl voice).1.error
      = orDefault pred.error defaultPredictError ∧
    (handleAnalyze s pred expl voice).2.explainArgs = none ∧
    (handleAnalyze s pred expl voice).2.voiceArgs = none := by
  obtain ⟨f, hf⟩ := Option.isSome_iff_exists.mp himg
  rcases hfail with h | h <;> simp [handleAnalyze, hf, h]

/-- Witness for C1 at the spec scenario: ready page, classification
fails with "model unavailable". -/
theorem classify_failure_short_circuits_witness :
    (handleAnalyze sReady predFail explOk voiceOk).1.analysisState
      = AnalysisState.error ∧
    (handleAnalyze sReady predFail explOk voiceOk).1.error
      = orDefault predFail.error defaultPredictError ∧
    (handleAnalyze sReady predFail explOk voiceOk).2.explainArgs = none ∧
    (handleAnalyze sReady predFail explOk voiceOk).2.voiceArgs = none :=
  classify_failure_short_circuits sReady predFail explOk voiceOk
    (by decide) (Or.inl rfl)

/-- Claim C2: in every analysis cycle where classification succeeds but
the explanation call returns `success=false`, the recorded explanation
text equals the fixed fallback string, the voice-synthesis call is still
invoked with that fallback text, and the cycle passes through the
`generating-voice` stage and never enters `error`. -/
theorem explain_failure_uses_fallback
    (s : PageState) (pred : PredictionResult) (expl : ExplanationResult)
    (voice : VoiceResult)
    (himg : s.selectedImage.isSome = true)
    (hps : pred.success = true)
    (hpd : strTruthy pred.disease = true)
    (hes : expl.success = false) :
    (handleAnalyze s pred expl voice).1.explanation = fallbackExplanation ∧
    (handleAnalyze s pred expl voice).2.voiceArgs
      = some (fallbackExplanation, s.selectedLanguage) ∧
    AnalysisState.generatingVoice
      ∈ (handleAnalyze s pred expl voice).2.stateHistory ∧
    AnalysisState.error ∉ (handleAnalyze s pred expl voice).2.stateHistory ∧
    (handleAnalyze s pred expl voice).1.analysisState = AnalysisState.complete := by
  obtain ⟨f, hf⟩ := Option.isSome_iff_exists.mp himg
  simp [handleAnalyze, hf, hps, hpd, hes]

/-- Witness for C2: classification succeeds with "Early Blight", the
explanation service fails, voice synthesis succeeds. -/
theorem explain_failure_uses_fallback_witness :
    (handleAnalyze sReady predOk explFail voiceOk).1.explanation
      = fallbackExplanation ∧
    (handleAnalyze sReady predOk explFail voiceOk).2.voiceArgs
      = some (fallbackExplanation, sReady.selectedLanguage) ∧
    AnalysisState.generatingVoice
      ∈ (handleAnalyze sReady predOk explFail voiceOk).2.stateHistory ∧
    AnalysisState.error ∉ (handleAnalyze sReady predOk explFail voiceOk).2.stateHistory ∧
    (handleAnalyze sReady predOk explFail voiceOk).1.analysisState
      = AnalysisState.complete :=
  explain_failure_uses_fallback sReady predOk explFail voiceOk
    (by decide) rfl rfl rfl

/-- Claim C3: in every analysis cycle where classification and
explanation succeed but the voice-synthesis call returns `success=false`
or no audio payload, the final `AnalysisState` is `complete` and the
stored audio payload is empty. -/
theorem voice_failure_completes_with_empty_audio
    (s : PageState) (pred : PredictionResult) (expl : ExplanationResult)
    (voice : VoiceResult)
    (himg : s.selectedImage.isSome = true)
    (hps : pred.success = true)
    (hpd : strTruthy pred.disease = true)
    (hes : expl.success = true)
    (hvf : voice.success = false ∨ strTruthy voice.audioBase64 = false) :
    (handleAnalyze s pred expl voice).1.analysisState = AnalysisState.complete ∧
    (handleAnalyze s pred expl voice).1.audioBase64 = "" := by
  obtain ⟨f, hf⟩ := Option.isSome_iff_exists.mp himg
  rcases hvf with h | h <;> simp [handleAnalyze, hf, hps, hpd, hes, h]

/-- Witness for C3: classification and explanation succeed, voice
synthesis fails. -/
theorem voice_failure_completes_with_empty_audio_witness :
    (handleAnalyze sReady predOk explOk voiceFail).1.analysisState
      = AnalysisState.complete ∧
    (handleAnalyze sReady predOk explOk voiceFail).1.audioBase64 = "" :=
  voice_failure_completes_with_empty_audio sReady predOk explOk voiceFail
    (by decide) rfl rfl rfl (Or.inl rfl)

/-- Counterexample to claim C4: run a fully successful cycle from the
ready state, then re-run analysis (without re-selecting the image) with a
failing classification.  The second cycle ends in `error`, yet the first
cycle's disease label, explanation text and audio payload are all still
stored — `handleAnalyze` never clears prior results. -/
theorem residual_results_survive_cex :
    (handleAnalyze (handleAnalyze sReady predOk explOk voiceOk).1
        predFail explOk voiceOk).1.analysisState = AnalysisState.error ∧
    (handleAnalyze (handleAnalyze sReady predOk explOk voiceOk).1
        predFail explOk voiceOk).1.disease = "Early Blight" ∧
    (handleAnalyze (handleAnalyze sReady predOk explOk voiceOk).1
        predFail explOk voiceOk).1.explanation = "Early blight is caused by..." ∧
    (handleAnalyze (handleAnalyze sReady predOk explOk voiceOk).1
        predFail explOk voiceOk).1.audioBase64 = "QUJD" := by
  refine ⟨rfl, rfl, rfl, rfl⟩

/-- Amended C4: result entities are replaced wholesale when an image is
selected (or cleared), not at the start of an analysis cycle.  In a cycle
whose classification fails, the disease label, explanation text and
audio payload keep their pre-cycle values, so residuals from a previous
cycle survive when analysis is re-triggered without re-selecting the
image; selecting an image does clear all of them. -/
theorem results_replaced_on_image_select_not_on_analyze
    (s : PageState) (pred : PredictionResult) (expl : ExplanationResult)
    (voice : VoiceResult) (f : FileData)
    (himg : s.selectedImage.isSome = true)
    (hfail : pred.success = false ∨ strTruthy pred.disease = false) :
    (handleAnalyze s pred expl voice).1.disease = s.disease ∧
    (handleAnalyze s pred expl voice).1.explanation = s.explanation ∧
    (handleAnalyze s pred expl voice).1.audioBase64 = s.audioBase64 ∧
    (handleAnalyze s pred expl voice).1.analysisState = AnalysisState.error ∧
    (handleImageSelect s f).disease = "" ∧
    (handleImageSelect s f).explanation = "" ∧
    (handleImageSelect s f).audioBase64 = "" := by
  obtain ⟨g, hg⟩ := Option.isSome_iff_exists.mp himg
  rcases hfail with h | h <;>
    simp [handleAnalyze, handleImageSelect, hg, h]

/-- Witness for the amended C4, at the state produced by a successful
first cycle followed by a failing classification. -/
theorem results_replaced_on_image_select_not_on_analyze_witness :
    (handleAnalyze (handleAnalyze sReady predOk explOk voiceOk).1
        predFail explOk voiceOk).1.disease
      = (handleAnalyze sReady predOk explOk voiceOk).1.disease ∧
    (handleAnalyze (handleAnalyze sReady predOk explOk voiceOk).1
        predFail explOk voiceOk).1.explanation
      = (handleAnalyze sReady predOk explOk voiceOk).1.explanation ∧
    (handleAnalyze (handleAnalyze sReady predOk explOk voiceOk).1
        predFail explOk voiceOk).1.audioBase64
      = (handleAnalyze sReady predOk explOk voiceOk).1.audioBase64 ∧
    (handleAnalyze (handleAnalyze sReady predOk explOk voiceOk).1
        predFail explOk voiceOk).1.analysisState = AnalysisState.error ∧
    (handleImageSelect (handleAnalyze sReady predOk explOk voiceOk).1 sampleFile).disease = "" ∧
    (handleImageSelect (handleAnalyze sReady predOk explOk voiceOk).1 sampleFile).explanation = "" ∧
    (handleImageSelect (handleAnalyze sReady predOk explOk voiceOk).1 sampleFile).audioBase64 = "" :=
  results_replaced_on_image_select_not_on_analyze
    (handleAnalyze sReady predOk explOk voiceOk).1 predFail explOk voiceOk
    sampleFile (by decide) (Or.inl rfl)

/-- Claim C5: media intake accepts a file exactly when its MIME type
starts with the image prefix and its size is at most 10,485,760 bytes;
on violation it shows a validation alert, creates no preview, forwards no
file, changes no page state and leaves `AnalysisState` at `idle`. -/
theorem media_intake_accepts_iff
    (file : FileData) (s : PageState)
    (hidle : s.analysisState = AnalysisState.idle) :
    ((handleFile file).forwarded = true ↔
      (file.type.startsWith "image/" = true ∧ file.size ≤ 10485760)) ∧
    (handleFile file).previewSet = (handleFile file).forwarded ∧
    (handleFile file).alertMsg.isSome = !(handleFile file).forwarded ∧
    ((handleFile file).forwarded = false → processFile s file = s) ∧
    (processFile s file).analysisState = AnalysisState.idle := by
  by_cases h1 : file.type.startsWith "image/"
  · by_cases h2 : file.size ≤ 10485760
    · have h3 : ¬ file.size > imageSizeLimit := by simp [imageSizeLimit]; omega
      simp [handleFile, processFile, handleImageSelect, h1, h2, h3]
    · have h3 : file.size > imageSizeLimit := by simp [imageSizeLimit]; omega
      simp [handleFile, processFile, h1, h2, h3, hidle]
  · simp [handleFile, processFile, h1, hidle]

/-- Witness for C5 at a concrete oversized PNG: rejected with an alert,
no preview, no forwarding, page state unchanged and still `idle`. -/
theorem media_intake_accepts_iff_witness :
    ((handleFile { name := "big.png", type := "image/png", size := 20000000 }).forwarded = true ↔
      ((FileData.type { name := "big.png", type := "image/png", size := 20000000 }).startsWith "image/" = true ∧
        (FileData.size { name := "big.png", type := "image/png", size := 20000000 }) ≤ 10485760)) ∧
    (handleFile { name := "big.png", type := "image/png", size := 20000000 }).previewSet
      = (handleFile { name := "big.png", type := "image/png", size := 20000000 }).forwarded ∧
    (handleFile { name := "big.png", type := "image/png", size := 20000000 }).alertMsg.isSome
      = !(handleFile { name := "big.png", type := "image/png", size := 20000000 }).forwarded ∧
    ((handleFile { name := "big.png", type := "image/png", size := 20000000 }).forwarded = false →
      processFile initialState { name := "big.png", type := "image/png", size := 20000000 } = initialState) ∧
    (processFile initialState { name := "big.png", type := "image/png", size := 20000000 }).analysisState
      = AnalysisState.idle :=
  media_intake_accepts_iff
    { name := "big.png", type := "image/png", size := 20000000 } initialState rfl

/-- Claim C6: invoking analysis while no image is selected stores the
validation message, issues no remote call, never enters `predicting`,
and leaves `AnalysisState` at `idle`. -/
theorem analyze_without_image_stays_idle
    (s : PageState) (pred : PredictionResult) (expl : ExplanationResult)
    (voice : VoiceResult)
    (hnone : s.selectedImage = none)
    (hidle : s.analysisState = AnalysisState.idle) :
    (handleAnalyze s pred expl voice).1.error = noImageError ∧
    (handleAnalyze s pred expl voice).2.classifyArgs = none ∧
    (handleAnalyze s pred expl voice).2.explainArgs = none ∧
    (handleAnalyze s pred expl voice).2.voiceArgs = none ∧
    (handleAnalyze s pred expl voice).1.analysisState = AnalysisState.idle ∧
    AnalysisState.predicting ∉ (handleAnalyze s pred expl voice).2.stateHistory := by
  simp [handleAnalyze, hnone, hidle]

/-- Witness for C6 at the initial page state (no image selected). -/
theorem analyze_without_image_stays_idle_witness :
    (handleAnalyze initialState predOk explOk voiceOk).1.error = noImageError ∧
    (handleAnalyze initialState predOk explOk voiceOk).2.classifyArgs = none ∧
    (handleAnalyze initialState predOk explOk voiceOk).2.explainArgs = none ∧
    (handleAnalyze initialState predOk explOk voiceOk).2.voiceArgs = none ∧
    (handleAnalyze initialState predOk explOk voiceOk).1.analysisState
      = AnalysisState.idle ∧
    AnalysisState.predicting
      ∉ (handleAnalyze initialState predOk explOk voiceOk).2.stateHistory :=
  analyze_without_image_stays_idle initialState predOk explOk voiceOk rfl rfl

/-- Claim C7: the Analyze control is disabled exactly while
`AnalysisState` is `predicting`, `explaining` or `generating-voice`, or
while no image is selected; equivalently it is enabled exactly when the
state is `idle`, `complete` or `error` and an image is selected. -/
theorem analyze_control_disabled_iff (s : PageState) :
    (analyzeDisabled s = true ↔
      (s.analysisState = AnalysisState.predicting ∨
       s.analysisState = AnalysisState.explaining ∨
       s.analysisState = AnalysisState.generatingVoice ∨
       s.selectedImage = none)) ∧
    (analyzeDisabled s = false ↔
      ((s.analysisState = AnalysisState.idle ∨
        s.analysisState = AnalysisState.complete ∨
        s.analysisState = AnalysisState.error) ∧
       s.selectedImage ≠ none)) := by
  obtain ⟨crop, lang, img, st, d, c, e, a, m⟩ := s
  cases st <;> cases img <;> simp [analyzeDisabled, isLoading]

/-- Witness for C7: the control is enabled in the ready state and
disabled in the initial (no image) state. -/
theorem analyze_control_disabled_iff_witness :
    analyzeDisabled sReady = false ∧ analyzeDisabled initialState = true :=
  ⟨(analyze_control_disabled_iff sReady).2.mpr (by exact ⟨Or.inl rfl, by decide⟩),
   (analyze_control_disabled_iff initialState).1.mpr (Or.inr (Or.inr (Or.inr rfl)))⟩

/-- Counterexample to claim C8: invoking analysis from the initial state
with no image selected leaves `AnalysisState` at `idle` with a nonempty
validation message, so the page does NOT render the empty placeholder
although the state is `idle`, and DOES render the error panel although
the state is not `error`. -/
theorem placeholder_error_panel_cex :
    (handleAnalyze initialState predOk explOk voiceOk).1.analysisState
      = AnalysisState.idle ∧
    rendersPlaceholder (handleAnalyze initialState predOk explOk voiceOk).1
      = false ∧
    (handleAnalyze initialState predOk explOk voiceOk).1.analysisState
      ≠ AnalysisState.error ∧
    rendersErrorPanel (handleAnalyze initialState predOk explOk voiceOk).1
      = true := by
  refine ⟨rfl, rfl, by decide, rfl⟩

/-- Amended C8: the empty placeholder is rendered exactly when
`AnalysisState` is `idle` AND the error message is empty, and the error
panel is rendered exactly when the error message is nonempty — which
includes every `error` state produced by an analysis cycle, but also the
`idle` state reached after a validation error. -/
theorem placeholder_and_error_panel_rendering
    (s s0 : PageState) (pred : PredictionResult) (expl : ExplanationResult)
    (voice : VoiceResult)
    (himg : s0.selectedImage.isSome = true)
    (herr : (handleAnalyze s0 pred expl voice).1.analysisState
              = AnalysisState.error) :
    (rendersPlaceholder s = true ↔
      (s.analysisState = AnalysisState.idle ∧ s.error = "")) ∧
    (rendersErrorPanel s = true ↔ s.error ≠ "") ∧
    rendersErrorPanel (handleAnalyze s0 pred expl voice).1 = true := by
  obtain ⟨f, hf⟩ := Option.isSome_iff_exists.mp himg
  refine ⟨?_, ?_, ?_⟩
  · obtain ⟨crop, lang, img, st, d, c, e, a, m⟩ := s
    cases st <;> simp [rendersPlaceholder]
  · simp [rendersErrorPanel]
  · by_cases hc : (!pred.success || !strTruthy pred.disease) = true
    · have : (handleAnalyze s0 pred expl voice).1.error
          = orDefault pred.error defaultPredictError := by
        simp [handleAnalyze, hf, hc]
      rw [rendersErrorPanel, this]
      cases he : pred.error with
      | none => simp [orDefault, defaultPredictError]
      | some m =>
          by_cases hm : m = "" <;>
            simp [orDefault, defaultPredictError, hm]
    · exfalso
      simp [handleAnalyze, hf, hc] at herr

/-- Witness for the amended C8, with the error state produced by a
failing classification from the ready state. -/
theorem placeholder_and_error_panel_rendering_witness :
    (rendersPlaceholder initialState = true ↔
      (initialState.analysisState = AnalysisState.idle ∧
       initialState.error = "")) ∧
    (rendersErrorPanel initialState = true ↔ initialState.error ≠ "") ∧
    rendersErrorPanel (handleAnalyze sReady predFail explOk voiceOk).1 = true :=
  placeholder_and_error_panel_rendering initialState sReady predFail explOk
    voiceOk (by decide) rfl

/-- Claim C9: the local-speech fallback's language-to-locale map has
exactly two entries, English mapping to en-US and Hindi to hi-IN, and
for each of the other supported language labels (Telugu, Tamil, Bengali,
Marathi) the fallback utterance's locale defaults to en-US. -/
theorem speech_fallback_locale_map :
    langMap.length = 2 ∧
    langMap.lookup "English" = some "en-US" ∧
    langMap.lookup "Hindi" = some "hi-IN" ∧
    fallbackLocale "English" = "en-US" ∧
    fallbackLocale "Hindi" = "hi-IN" ∧
    fallbackLocale "Telugu" = "en-US" ∧
    fallbackLocale "Tamil" = "en-US" ∧
    fallbackLocale "Bengali" = "en-US" ∧
    fallbackLocale "Marathi" = "en-US" ∧
    LANGUAGES = ["English", "Hindi", "Telugu", "Tamil", "Bengali", "Marathi"] := by
  refine ⟨rfl, by decide, by decide, by decide, by decide, by decide,
          by decide, by decide, by decide, rfl⟩

/-- Claim C10: selecting a new image (and likewise clearing the current
image) resets `AnalysisState` to `idle` and clears the disease label,
explanation text, audio payload and error message, so neither the
disease card, the explanation card, the audio player nor the error panel
from a prior cycle renders afterwards. -/
theorem image_select_resets_results (s : PageState) (f : FileData) :
    (handleImageSelect s f).analysisState = AnalysisState.idle ∧
    (handleImageSelect s f).disease = "" ∧
    (handleImageSelect s f).explanation = "" ∧
    (handleImageSelect s f).audioBase64 = "" ∧
    (handleImageSelect s f).error = "" ∧
    (handleImageSelect s f).selectedImage = some f ∧
    rendersDiseaseCard (handleImageSelect s f) = false ∧
    rendersExplanationCard (handleImageSelect s f) = false ∧
    rendersAudioPlayer (handleImageSelect s f) = false ∧
    rendersErrorPanel (handleImageSelect s f) = false ∧
    (handleClearImage s).analysisState = AnalysisState.idle ∧
    (handleClearImage s).disease = "" ∧
    (handleClearImage s).explanation = "" ∧
    (handleClearImage s).audioBase64 = "" ∧
    (handleClearImage s).error = "" := by
  simp [handleImageSelect, handleClearImage, rendersDiseaseCard,
        rendersExplanationCard, rendersAudioPlayer, rendersErrorPanel]

/-- Witness for C10: re-selecting the sample image after a completed
cycle clears every stored result. -/
theorem image_select_resets_results_witness :
    (handleImageSelect (handleAnalyze sReady predOk explOk voiceOk).1 sampleFile).analysisState
      = AnalysisState.idle ∧
    (handleImageSelect (handleAnalyze sReady predOk explOk voiceOk).1 sampleFile).disease = "" ∧
    (handleImageSelect (handleAnalyze sReady predOk explOk voiceOk).1 sampleFile).explanation = "" ∧
    (handleImageSelect (handleAnalyze sReady predOk explOk voiceOk).1 sampleFile).audioBase64 = "" ∧
    (handleImageSelect (handleAnalyze sReady predOk explOk voiceOk).1 sampleFile).error = "" ∧
    (handleImageSelect (handleAnalyze sReady predOk explOk voiceOk).1 sampleFile).selectedImage
      = some sampleFile ∧
    rendersDiseaseCard (handleImageSelect (handleAnalyze sReady predOk explOk voiceOk).1 sampleFile)
      = false ∧
    rendersExplanationCard (handleImageSelect (handleAnalyze sReady predOk explOk voiceOk).1 sampleFile)
      = false ∧
    rendersAudioPlayer (handleImageSelect (handleAnalyze sReady predOk explOk voiceOk).1 sampleFile)
      = false ∧
    rendersErrorPanel (handleImageSelect (handleAnalyze sReady predOk explOk voiceOk).1 sampleFile)
      = false ∧
    (handleClearImage (handleAnalyze sReady predOk explOk voiceOk).1).analysisState
      = AnalysisState.idle ∧
    (handleClearImage (handleAnalyze sReady predOk explOk voiceOk).1).disease = "" ∧
    (handleClearImage (handleAnalyze sReady predOk explOk voiceOk).1).explanation = "" ∧
    (handleClearImage (handleAnalyze sReady predOk explOk voiceOk).1).audioBase64 = "" ∧
    (handleClearImage (handleAnalyze sReady predOk explOk voiceOk).1).error = "" :=
  image_select_resets_results (handleAnalyze sReady predOk explOk voiceOk).1 sampleFile
